import Mathlib

/-!
Verification development for the surface-basis construction in
pymatgen/surface/buildbasis.py (class Vaspsurface, method transformbasis)
and the deformation helper in pymatgen/phonons/strain.py.

Conventions of the embedding:
* Vectors are rational triples (V3) and all arithmetic is exact over ℚ.
* Surftool.ang (surftool.py is not among the staged sources; the spec
  defines it as the arccosine of the normalized dot product) only ever
  appears in transformbasis under comparisons against pi/2, against 0, or
  against another angle of the same kind; each comparison is encoded by
  the equivalent dot-product inequality, valid for the nonzero vectors the
  code applies it to, because arccos is strictly decreasing on [-1, 1]:
    ang(u, v) <= pi/2  iff  0 <= u.v
    ang(u, v) > 0      iff  u.v < 0 or (u.v)^2 < |u|^2 |v|^2
    for angles at most pi/2, ang(n, w) < ang(n, w0) iff
      (n.w)^2 |w0|^2 > (n.w0)^2 |w|^2.
* numpy norm comparisons |a| < |b| are encoded by |a|^2 < |b|^2.
* Python 2 semantics are kept where they matter: / on two ints is floor
  division (Nat division here), and a loop variable keeps its last
  assigned value after the loop, so values that the original code reads
  without reassigning are modelled as explicit stale inputs.
-/

/-- A 3-vector with rational coordinates, standing for the numpy length-3
arrays of buildbasis.py. -/
structure V3 where
  x : ℚ
  y : ℚ
  z : ℚ
deriving DecidableEq, Repr

/-- Componentwise sum, as numpy array addition. -/
def vaddV (u v : V3) : V3 := ⟨u.x + v.x, u.y + v.y, u.z + v.z⟩

/-- Componentwise difference, as numpy array subtraction. -/
def vsubV (u v : V3) : V3 := ⟨u.x - v.x, u.y - v.y, u.z - v.z⟩

/-- Scalar multiple, as numpy scalar-array product. -/
def smulV (c : ℚ) (v : V3) : V3 := ⟨c * v.x, c * v.y, c * v.z⟩

/-- Dot product of two 3-vectors (np.dot). -/
def vdot (u v : V3) : ℚ := u.x * v.x + u.y * v.y + u.z * v.z

/-- Cross product of two 3-vectors (np.cross). -/
def vcross (u v : V3) : V3 :=
  ⟨u.y * v.z - u.z * v.y, u.z * v.x - u.x * v.z, u.x * v.y - u.y * v.x⟩

/-- Squared euclidean norm; npl.norm(v) enters only through comparisons,
which are encoded on the squares. -/
def vnorm2 (v : V3) : ℚ := vdot v v

/-- The zero vector, the literal [0,0,0] of buildbasis.py. -/
def zeroV : V3 := ⟨0, 0, 0⟩

/-- np.eye(3,3), rows as a triple. -/
def eye3 : V3 × V3 × V3 := (⟨1, 0, 0⟩, ⟨0, 1, 0⟩, ⟨0, 0, 1⟩)

/-- Determinant of a basis given by rows, det = r1 . (r2 x r3). -/
def det3 (b : V3 × V3 × V3) : ℚ := vdot b.1 (vcross b.2.1 b.2.2)

/-- Models ang(u, w) > 0 for nonzero u and w: the angle is positive exactly
when the normalized dot product is below 1, that is when u.w < 0 or
(u.w)^2 < |u|^2 |w|^2. For w = 0 (a degenerate integer combination) the
original float code produces nan, on which every comparison is false, and
this encoding is false as well. -/
abbrev AngPos (u w : V3) : Prop :=
  vdot u w < 0 ∨ (vdot u w) ^ 2 < vnorm2 u * vnorm2 w

/-!
Vertex choice for a point triple (buildbasis.py lines 105 to 112).

    for aa in range(0,3):
        v1 = pts[(aa+1)%3] - pts[aa%3]
        v2 = pts[(aa+2)%3] - pts[aa%3]
        if ang(v1, v2) <= pi/2: bb = aa; break

ang(v1, v2) <= pi/2 is encoded as 0 <= v1.v2; none below is the case in
which the scan finishes with bb never assigned in this iteration.
-/

/-- Lines 105 to 112 of transformbasis: the cyclic scan that picks the
first vertex of the triple whose two edge vectors subtend an angle of at
most pi/2. -/
def chooseVertex (p0 p1 p2 : V3) : Option (Fin 3) :=
  if 0 ≤ vdot (vsubV p1 p0) (vsubV p2 p0) then some 0
  else if 0 ≤ vdot (vsubV p2 p1) (vsubV p0 p1) then some 1
  else if 0 ≤ vdot (vsubV p0 p2) (vsubV p1 p2) then some 2
  else none

/-!
Sign canonicalization of an in-plane pair (buildbasis.py lines 115 to 141).

After v1xv2 = np.cross(v1, v2) and the norm-zero skip, the code runs

    if v1xv2[0] < 0:        swap v1, v2 and negate v1xv2
    elif v1xv2[0] == 0:
        if v1xv2[1] < 0:    swap and negate
        elif v1xv2[1] == 0:
            if v1xv2[2] < 0: swap and negate
    else:
        continue

The trailing else of the OUTER chain fires exactly when v1xv2[0] > 0 and
abandons the triple. none below is that continue; some (w1, w2) is the
pair the code goes on with.
-/

/-- Lines 120 to 141 of transformbasis: the sign-canonicalization step on
a pair with nonzero cross product. Returns the possibly swapped pair, or
none when the Python continue discards the triple (a cross product whose
first coordinate is positive). -/
def signCanon (v1 v2 : V3) : Option (V3 × V3) :=
  let n := vcross v1 v2
  if n.x < 0 then some (v2, v1)
  else if n.x = 0 then
    if n.y < 0 then some (v2, v1)
    else if n.y = 0 then
      if n.z < 0 then some (v2, v1) else some (v1, v2)
    else some (v1, v2)
  else none

/-!
Deduplication by canonical Miller index (buildbasis.py lines 148 to 174).

The scan over millercheck sets duplicate, possibly sets replace = mm and
overwrites v1xv2check[mm] and millercheck[mm]; afterwards either a fresh
Sobat is appended, or, when duplicate and replace != 0, the entry at index
replace is overwritten by a Sobat built from the CURRENT threepts and
millerindex but the STALE local variables twovects, v3 and standardbasis
left over from the last append (v3 and standardbasis are the constants
[0,0,0] and eye(3,3) during this phase, twovects is the previously
appended pair). replace = 0 is also the value meaning no replacement, so
a smaller-area duplicate of the entry at index 0 never replaces it.
-/

/-- A candidate as it reaches the deduplication code: its point triple,
its canonicalized in-plane pair and its symmetry-reduced canonical Miller
index (the output of getmillerfrom2v and getsymfam). -/
structure Cand where
  threepts : V3 × V3 × V3
  v1 : V3
  v2 : V3
  miller : V3
deriving DecidableEq, Repr

/-- The Sobat record of buildbasis.py lines 16 to 23. -/
structure Sobat where
  threepts : V3 × V3 × V3
  twovects : V3 × V3
  v3 : V3
  standardbasis : V3 × V3 × V3
  millerindex : V3
  atomcoords : List (ℚ × ℚ × ℚ × ℚ)
deriving DecidableEq, Repr

/-- The mutable state of the enumeration loop: the two check lists, the
candidate list ListofS3A2V, and the stale value of the local twovects
(last assigned in the append branch and read by the replace branch). -/
structure DState where
  millercheck : List V3
  v1xv2check : List V3
  lst : List Sobat
  staleTwovects : V3 × V3
deriving DecidableEq, Repr

/-- Lines 151 to 157 of transformbasis: the scan over millercheck indices.
Returns the final duplicate flag, the final replace value, and the updated
zipped (millercheck, v1xv2check) lists; mm is the index of the head pair,
dup and rep the values accumulated so far. -/
def dupScanGo (mi nv : V3) (pairs : List (V3 × V3)) (mm : ℕ) (dup : Bool)
    (rep : ℕ) : Bool × ℕ × List (V3 × V3) :=
  match pairs with
  | [] => (dup, rep, [])
  | (m, v) :: rest =>
    if m = mi then
      if vnorm2 nv < vnorm2 v then
        let r := dupScanGo mi nv rest (mm + 1) true mm
        (r.1, r.2.1, (mi, nv) :: r.2.2)
      else
        let r := dupScanGo mi nv rest (mm + 1) true rep
        (r.1, r.2.1, (m, v) :: r.2.2)
    else
      let r := dupScanGo mi nv rest (mm + 1) dup rep
      (r.1, r.2.1, (m, v) :: r.2.2)

/-- Lines 148 to 174 of transformbasis: processing of one canonicalized
candidate against the deduplication state (the vector == 0 path). -/
def dedupeStep (st : DState) (c : Cand) : DState :=
  let v1xv2 := vcross c.v1 c.v2
  let scan := dupScanGo c.miller v1xv2 (st.millercheck.zip st.v1xv2check) 0 false 0
  let dup := scan.1
  let rep := scan.2.1
  let mc := scan.2.2.map Prod.fst
  let vc := scan.2.2.map Prod.snd
  if dup = false then
    { millercheck := mc ++ [c.miller]
      v1xv2check := vc ++ [v1xv2]
      lst := st.lst ++ [{ threepts := c.threepts, twovects := (c.v1, c.v2),
                          v3 := zeroV, standardbasis := eye3,
                          millerindex := c.miller, atomcoords := [(0, 0, 0, 0)] }]
      staleTwovects := (c.v1, c.v2) }
  else if rep ≠ 0 then
    { millercheck := mc
      v1xv2check := vc
      lst := st.lst.set rep { threepts := c.threepts, twovects := st.staleTwovects,
                              v3 := zeroV, standardbasis := eye3,
                              millerindex := c.miller, atomcoords := [(0, 0, 0, 0)] }
      staleTwovects := st.staleTwovects }
  else
    { st with millercheck := mc, v1xv2check := vc }

/-- The enumeration loop folded over a stream of canonicalized candidates,
starting from empty check lists and an empty ListofS3A2V. -/
def dedupeRun (cs : List Cand) : DState :=
  cs.foldl dedupeStep
    { millercheck := [], v1xv2check := [], lst := [], staleTwovects := (zeroV, zeroV) }

/-!
Third-vector search (buildbasis.py lines 194 to 218).

    lastT = 100
    for ii in -1..1: for jj in -1..1: for kk in -1..1:
        skip (0,0,0)
        v3temp = ii*x + jj*y + kk*z
        if ang(S7,v3temp) <= pi/2 and ang(v1,v3temp) <= pi/2 and
           ang(v2,v3temp) <= pi/2 and ang(v1,v3temp) > 0 and ang(v2,v3temp) > 0:
            if ang(S7,v3temp) < lastT: lastT = ...; v3 = v3temp
    ListofS3A2V[ss].v3 = v3

All angles compared are at most pi/2 once the guard holds, so the running
minimum is tracked through (S7.w)^2 and |w|^2 (larger cosine = smaller
angle); the initial lastT = 100 exceeds every real angle, hence the none
start. When no offset passes, v3 is never assigned inside the loop and
the candidate receives the stale value of v3.
-/

/-- The 27 offsets (ii, jj, kk) in the exact nested-loop order of lines
200 to 202; the loop body skips (0,0,0). -/
def sweepOffsets : List (ℚ × ℚ × ℚ) :=
  [(-1, -1, -1), (-1, -1, 0), (-1, -1, 1), (-1, 0, -1), (-1, 0, 0), (-1, 0, 1),
   (-1, 1, -1), (-1, 1, 0), (-1, 1, 1), (0, -1, -1), (0, -1, 0), (0, -1, 1),
   (0, 0, -1), (0, 0, 0), (0, 0, 1), (0, 1, -1), (0, 1, 0), (0, 1, 1),
   (1, -1, -1), (1, -1, 0), (1, -1, 1), (1, 0, -1), (1, 0, 0), (1, 0, 1),
   (1, 1, -1), (1, 1, 0), (1, 1, 1)]

/-- Lines 203 to 215 of transformbasis: one iteration of the third-vector
search. The state holds the best vector so far together with its dot
product against S7 and its squared norm; the comparison
(S7.w)^2 * bn > bd^2 * |w|^2 is the angle comparison T < lastT for angles
at most pi/2. -/
def thirdStep (basis : V3 × V3 × V3) (S7 v1 v2 : V3) (st : Option (V3 × ℚ × ℚ))
    (ijk : ℚ × ℚ × ℚ) : Option (V3 × ℚ × ℚ) :=
  if ijk = (0, 0, 0) then st
  else
    let v3temp := vaddV (vaddV (smulV ijk.1 basis.1) (smulV ijk.2.1 basis.2.1))
      (smulV ijk.2.2 basis.2.2)
    if 0 ≤ vdot S7 v3temp ∧ 0 ≤ vdot v1 v3temp ∧ 0 ≤ vdot v2 v3temp ∧
        AngPos v1 v3temp ∧ AngPos v2 v3temp then
      match st with
      | none => some (v3temp, vdot S7 v3temp, vnorm2 v3temp)
      | some (bw, bd, bn) =>
        if (vdot S7 v3temp) ^ 2 * bn > bd ^ 2 * vnorm2 v3temp then
          some (v3temp, vdot S7 v3temp, vnorm2 v3temp)
        else some (bw, bd, bn)
    else st

/-- Lines 194 to 215 of transformbasis for one candidate: the full search
over the 26 nonzero offsets; S7 = v1 x v2. Returns none when no offset
satisfies the constraints (the loop never assigns v3). -/
def findThirdVector (basis : V3 × V3 × V3) (v1 v2 : V3) : Option V3 :=
  Option.map (fun r => r.1)
    (sweepOffsets.foldl (thirdStep basis (vcross v1 v2) v1 v2) none)

/-- Line 218 of transformbasis: the value stored into the candidate field
v3 after the search, given the stale value the local variable v3 holds
before the loop ([0,0,0] from the enumeration phase for the first
candidate, the previous candidate result afterwards). -/
def selectThird (stale : V3) (basis : V3 × V3 × V3) (v1 v2 : V3) : V3 :=
  (findThirdVector basis v1 v2).getD stale

/-- The concrete bulk basis used to exercise the third-vector search:
rows (-1,3,2), (-1,2,2), (-1,2,3). Its row differences give the in-plane
pair v1 = (0,1,0), v2 = (0,0,1) with normal (1,0,0). -/
def cbBasis : V3 × V3 × V3 := (⟨-1, 3, 2⟩, ⟨-1, 2, 2⟩, ⟨-1, 2, 3⟩)

/-- A canonicalized candidate with in-plane pair (0,2,0), (0,0,2), cross
product (4,0,0), canonical Miller index (1,0,0). -/
def candA : Cand :=
  { threepts := (⟨0, 0, 0⟩, ⟨0, 2, 0⟩, ⟨0, 0, 2⟩), v1 := ⟨0, 2, 0⟩,
    v2 := ⟨0, 0, 2⟩, miller := ⟨1, 0, 0⟩ }

/-- A later candidate of the same Miller class as candA with in-plane pair
(0,1,0), (0,0,1), cross product (1,0,0): strictly smaller area. -/
def candB : Cand :=
  { threepts := (⟨0, 0, 0⟩, ⟨0, 1, 0⟩, ⟨0, 0, 1⟩), v1 := ⟨0, 1, 0⟩,
    v2 := ⟨0, 0, 1⟩, miller := ⟨1, 0, 0⟩ }

/-- A candidate of a different Miller class, (0,0,1), used to push the
candA class to a nonzero list index. -/
def candZ : Cand :=
  { threepts := (⟨0, 0, 0⟩, ⟨1, 0, 0⟩, ⟨0, 1, 0⟩), v1 := ⟨1, 0, 0⟩,
    v2 := ⟨0, 1, 0⟩, miller := ⟨0, 0, 1⟩ }

/-!
Atom retention filter (buildbasis.py lines 341 to 348).

    if XA>=-0.001 and XA<0.999 and XB>=-0.001 and XB<0.999
       and XC>=-0.001 and XC<0.999: keep
-/

/-- Lines 341 to 348 of transformbasis: keep a remapped atom
(x, y, z, label) exactly when each fractional coordinate c satisfies
-0.001 <= c < 0.999; the label entry is not inspected. -/
def keepAtom (p : ℚ × ℚ × ℚ × ℚ) : Bool :=
  decide (-1/1000 ≤ p.1 ∧ p.1 < 999/1000 ∧
          -1/1000 ≤ p.2.1 ∧ p.2.1 < 999/1000 ∧
          -1/1000 ≤ p.2.2.1 ∧ p.2.2.1 < 999/1000)

/-!
Volume-consistency check (buildbasis.py lines 355 to 361).

    RPA = len(AtomicCoords); Ra = len(atoms)
    if np.abs(RPA/Ra - POSBASVOL) >= 0.01: raise SystemError(...)
    S.atomcoords = AtomicCoords

RPA and Ra are Python ints and the module has no future-division import,
so RPA/Ra is floor division, mirrored by Nat division.
-/

/-- Lines 355 to 361 of transformbasis: the final volume-consistency gate
on a candidate. POSATOMS is the retained atom list, Ra the bulk atom count
and rho the new-to-bulk cell volume ratio POSBASVOL. Returns none when the
code raises (count held inconsistent with the volume), otherwise the list
as stored into S.atomcoords. -/
def finalizeCandidate (POSATOMS : List (ℚ × ℚ × ℚ × ℚ)) (Ra : ℕ) (rho : ℚ) :
    Option (List (ℚ × ℚ × ℚ × ℚ)) :=
  if 1/100 ≤ |((POSATOMS.length / Ra : ℕ) : ℚ) - rho| then none else some POSATOMS

/-- A concrete retained list of three atoms, used to exercise the
volume-consistency gate. -/
def atoms3 : List (ℚ × ℚ × ℚ × ℚ) := [(0, 0, 0, 0), (1/2, 0, 0, 1), (0, 1/2, 0, 2)]

/-!
Gram-Schmidt invariant checks (buildbasis.py lines 248 to 273).

The four raise sites compare quantities built from Surftool.ang, sproj and
npl.norm. Those quantities are taken here as inputs, exactly as the code
reads them: d12, d32, d13 are ang(f1hat,f2hat) - pi/2, ang(f3hat,f2hat) - pi/2
and ang(f1hat,f3hat) - pi/2; s21, s31, s32 are sproj(f2hat,b1),
sproj(f3hat,b1) and sproj(f3hat,b2); Ta, Tb, Tc are the angle differences of
lines 261 to 263 and La, Lb, Lc the length differences of lines 268 to 270.
The comparison structure below is the literal translation of the four if
statements:

    if abs(d12) >= 0.0001 or abs(d32) >= 0.0001 or abs(d13) >= 0.0001: raise
    if s21 >= 0.001 or s31 > 0.001 or s32 > 0.001: raise
    if Ta >= 0.001 or Tb >= 0.001 or Tc >= 0.001: raise
    if La > 0.0001 or Lb >= 0.0001 or Lc >= 0.0001: raise
-/

/-- Lines 248 to 273 of transformbasis: true exactly when one of the four
invariant checks raises, as a function of the measured quantities. Only
the frame-angle check uses an absolute value; the projection, angle-match
and length-match checks are one-sided. -/
def gramSchmidtRaises (d12 d32 d13 s21 s31 s32 Ta Tb Tc La Lb Lc : ℚ) : Bool :=
  decide ((1/10000 ≤ |d12| ∨ 1/10000 ≤ |d32| ∨ 1/10000 ≤ |d13|) ∨
          (1/1000 ≤ s21 ∨ 1/1000 < s31 ∨ 1/1000 < s32) ∨
          (1/1000 ≤ Ta ∨ 1/1000 ≤ Tb ∨ 1/1000 ≤ Tc) ∨
          (1/10000 < La ∨ 1/10000 ≤ Lb ∨ 1/10000 ≤ Lc))

/-!
Deformation.from_index_amount (strain.py lines 80 to 94).

    F = np.identity(3); F[matrixpos] += amt; return cls(F)
-/

/-- np.identity(3) as a function of row and column indices. -/
def identity3 (i j : Fin 3) : ℚ := if i = j then 1 else 0

/-- Lines 80 to 94 of strain.py: the deformation built from the identity
matrix by adding amt at the single matrix position p. -/
def from_index_amount (p : Fin 3 × Fin 3) (amt : ℚ) (i j : Fin 3) : ℚ :=
  if (i, j) = p then identity3 i j + amt else identity3 i j

/-!
Theorems: one per settled claim, with witnesses for the theorems that
carry hypotheses.
-/

/-- Claim C1: the sign-canonicalization step canonicalizes every pair with
nonzero cross product and discards none. REFUTED on the code: the pair
v1 = (0,1,0), v2 = (0,0,1) has cross product (1,0,0), nonzero and already
canonical, yet the trailing else executes continue and the triple is
dropped before any Miller index is computed. -/
theorem signCanon_drops_positive_x :
    vcross ⟨0, 1, 0⟩ ⟨0, 0, 1⟩ = ⟨1, 0, 0⟩ ∧
    vcross ⟨0, 1, 0⟩ ⟨0, 0, 1⟩ ≠ zeroV ∧
    signCanon ⟨0, 1, 0⟩ ⟨0, 0, 1⟩ = none := by
  refine ⟨by norm_num [vcross], by norm_num [vcross, zeroV], ?_⟩
  norm_num [signCanon, vcross]

/-- Claim C8: the sign-normalization step is not idempotent as coded. For
v1 = (0,0,1), v2 = (0,1,0) one application swaps the pair (its cross
product is (-1,0,0)); applying the step to its own output, whose cross
product is (1,0,0), hits the continue branch and discards the pair
instead of returning it unchanged. -/
theorem signCanon_not_idempotent :
    signCanon ⟨0, 0, 1⟩ ⟨0, 1, 0⟩ = some (⟨0, 1, 0⟩, ⟨0, 0, 1⟩) ∧
    signCanon ⟨0, 1, 0⟩ ⟨0, 0, 1⟩ = none := by
  constructor
  · norm_num [signCanon, vcross]
  · norm_num [signCanon, vcross]

/-- Claim C9: for three pairwise distinct points the cyclic vertex scan of
lines 105 to 112 always finds a vertex whose edge vectors subtend an angle
of at most pi/2 (in fact one of the first two vertices), so the chosen
ordering is never left unset. -/
theorem chooseVertex_finds_vertex (p0 p1 p2 : V3)
    (_h01 : p0 ≠ p1) (_h02 : p0 ≠ p2) (_h12 : p1 ≠ p2) :
    (chooseVertex p0 p1 p2).isSome = true := by
  unfold chooseVertex
  by_cases h : 0 ≤ vdot (vsubV p1 p0) (vsubV p2 p0)
  · simp [h]
  · have hneg : vdot (vsubV p1 p0) (vsubV p2 p0) < 0 := lt_of_not_le h
    have hkey : 0 ≤ vdot (vsubV p2 p1) (vsubV p0 p1) := by
      simp only [vdot, vsubV] at hneg ⊢
      nlinarith [mul_self_nonneg (p1.x - p0.x), mul_self_nonneg (p1.y - p0.y),
        mul_self_nonneg (p1.z - p0.z)]
    simp [h, hkey]

/-- Claim C9 witness: the scan applied to the concrete distinct triple
(0,0,0), (1,0,0), (0,1,0). -/
theorem chooseVertex_finds_vertex_witness :
    (chooseVertex ⟨0, 0, 0⟩ ⟨1, 0, 0⟩ ⟨0, 1, 0⟩).isSome = true :=
  chooseVertex_finds_vertex ⟨0, 0, 0⟩ ⟨1, 0, 0⟩ ⟨0, 1, 0⟩
    (by norm_num [V3.mk.injEq]) (by norm_num [V3.mk.injEq]) (by norm_num [V3.mk.injEq])

/-- Claim C4: the deduplication never replaces a kept candidate stored at
list position 0, and a replacement that does happen carries a stale
in-plane pair. On the stream candA (pair (0,2,0),(0,0,2), Miller (1,0,0))
then candB (pair (0,1,0),(0,0,1), same Miller, smaller area) the survivor
keeps the pair of candA because replace = 0 doubles as the no-replacement
sentinel, even though the area record v1xv2check is updated to the cross
product of candB; on the stream candZ, candA, candB the replacement at
index 1 stores candB threepts but the stale twovects of candA. -/
theorem dedupe_replace_bugs :
    (dedupeRun [candA, candB]).lst.map Sobat.twovects = [(⟨0, 2, 0⟩, ⟨0, 0, 2⟩)] ∧
    (dedupeRun [candA, candB]).v1xv2check = [⟨1, 0, 0⟩] ∧
    (dedupeRun [candZ, candA, candB]).lst.map Sobat.twovects =
      [(⟨1, 0, 0⟩, ⟨0, 1, 0⟩), (⟨0, 2, 0⟩, ⟨0, 0, 2⟩)] ∧
    (dedupeRun [candZ, candA, candB]).lst.map Sobat.threepts =
      [(⟨0, 0, 0⟩, ⟨1, 0, 0⟩, ⟨0, 1, 0⟩), (⟨0, 0, 0⟩, ⟨0, 1, 0⟩, ⟨0, 0, 1⟩)] := by
  refine ⟨?_, ?_, ?_, ?_⟩ <;>
    norm_num [dedupeRun, dedupeStep, dupScanGo, candA, candB, candZ, vcross,
      vnorm2, vdot, zeroV, eye3]

/-- Claim C3: when no offset in the 26-vector neighborhood satisfies the
angle constraints, the search returns nothing, no error of any kind is
signalled, and line 218 stores the stale value of v3 on the candidate.
For the basis cbBasis and the candidate pair v1 = (0,1,0), v2 = (0,0,1)
(a pair of bravais-point differences of that basis, at an angle of pi/2,
with canonical normal (1,0,0)) every offset fails, and the candidate
receives the stale [0,0,0]. -/
theorem thirdVector_silent_failure :
    det3 cbBasis = 1 ∧
    0 ≤ vdot ⟨0, 1, 0⟩ (⟨0, 0, 1⟩ : V3) ∧
    findThirdVector cbBasis ⟨0, 1, 0⟩ ⟨0, 0, 1⟩ = none ∧
    selectThird zeroV cbBasis ⟨0, 1, 0⟩ ⟨0, 0, 1⟩ = zeroV := by
  have hnone : findThirdVector cbBasis ⟨0, 1, 0⟩ ⟨0, 0, 1⟩ = none := by
    norm_num [findThirdVector, sweepOffsets, thirdStep, cbBasis, vaddV, smulV,
      vdot, vcross, vnorm2, AngPos]
  refine ⟨by norm_num [det3, cbBasis, vdot, vcross], by norm_num [vdot], hnone, ?_⟩
  simp [selectThird, hnone, zeroV]

/-- Claim C7, counterexample: the claim asserts that an atom at exactly
(0.999, 0, 0) is retained, but the filter upper bound is strictly
exclusive, so the atom is dropped. -/
theorem keepAtom_at_boundary : keepAtom (999/1000, 0, 0, 0) = false := by
  norm_num [keepAtom]

/-- Claim C7, amended: the filter keeps an atom exactly when all three
fractional coordinates lie in [-0.001, 0.999); an atom at (0,0,0) is
retained while atoms at (0.999, 0, 0) and at (1, 0, 0) are both
excluded. -/
theorem keepAtom_spec :
    (∀ x y z l : ℚ, keepAtom (x, y, z, l) = true ↔
        ((-1/1000 ≤ x ∧ x < 999/1000) ∧ (-1/1000 ≤ y ∧ y < 999/1000) ∧
         (-1/1000 ≤ z ∧ z < 999/1000))) ∧
    keepAtom (0, 0, 0, 0) = true ∧
    keepAtom (999/1000, 0, 0, 0) = false ∧
    keepAtom (1, 0, 0, 0) = false := by
  refine ⟨?_, by norm_num [keepAtom], by norm_num [keepAtom], by norm_num [keepAtom]⟩
  intro x y z l
  simp [keepAtom, and_assoc]

/-- Claim C5: a retained list of 3 atoms against a bulk count of 2 and a
volume ratio of 1 has exact atom-count ratio 3/2, differing from the
volume ratio by 0.5, which is at least 0.01, so by the claim the
volume-consistency error must fire; under the Python 2 floor division
3/2 = 1 the code sees a difference of 0, raises nothing, and stores the
inconsistent list on the candidate. -/
theorem volumeCheck_floor_miss :
    (1/100 : ℚ) ≤ |(3 : ℚ)/2 - 1| ∧
    atoms3.length = 3 ∧
    finalizeCandidate atoms3 2 1 = some atoms3 := by
  refine ⟨by norm_num [abs_of_nonneg], by norm_num [atoms3], ?_⟩
  norm_num [finalizeCandidate, atoms3]

/-- Claim C6, counterexample: with every other measured quantity clean, an
angle-match difference Ta = -1 violates the angle-preservation invariant
by a full radian in absolute value, yet the checker raises nothing,
because its comparison is one-sided. -/
theorem gramSchmidt_missed_violation :
    (1/1000 : ℚ) ≤ |(-1 : ℚ)| ∧
    gramSchmidtRaises 0 0 0 0 0 0 (-1) 0 0 0 0 0 = false := by
  constructor
  · norm_num
  · norm_num [gramSchmidtRaises]

/-- Claim C6, amended: the orthogonalizer raises exactly when the measured
quantities violate the one-sided bounds actually coded: the frame-angle
deviations are tested in absolute value, but the strictly-upper
projections, the angle differences and the length differences raise only
on positive excess (with the strict/non-strict mix of the source), so
violations in the negative direction pass silently; conversely, when all
four invariants hold within tolerance no error is raised. -/
theorem gramSchmidtRaises_iff (d12 d32 d13 s21 s31 s32 Ta Tb Tc La Lb Lc : ℚ) :
    gramSchmidtRaises d12 d32 d13 s21 s31 s32 Ta Tb Tc La Lb Lc = false ↔
      (|d12| < 1/10000 ∧ |d32| < 1/10000 ∧ |d13| < 1/10000 ∧
       s21 < 1/1000 ∧ s31 ≤ 1/1000 ∧ s32 ≤ 1/1000 ∧
       Ta < 1/1000 ∧ Tb < 1/1000 ∧ Tc < 1/1000 ∧
       La ≤ 1/10000 ∧ Lb < 1/10000 ∧ Lc < 1/10000) := by
  unfold gramSchmidtRaises
  rw [decide_eq_false_iff_not]
  push_neg
  tauto

/-- Claim C10: from_index_amount returns the identity with amt added at
exactly the requested matrix position; every other entry equals the
corresponding identity entry. -/
theorem from_index_amount_spec (p : Fin 3 × Fin 3) (amt : ℚ) :
    from_index_amount p amt p.1 p.2 = identity3 p.1 p.2 + amt ∧
    ∀ i j : Fin 3, (i, j) ≠ p → from_index_amount p amt i j = identity3 i j := by
  rcases p with ⟨a, b⟩
  constructor
  · simp [from_index_amount]
  · intro i j hij
    simp [from_index_amount, hij]
